import Mathlib

/-!
Verification of `CodeRunner/serve.py`, a launcher for a local static-file
development server.  The script is straight-line effectful code, so it is
embedded shallowly as a function from an environment (the facts the OS
supplies to a run: current working directory, the script's absolute path,
the outcome of the bind, whether a keyboard interrupt arrives while
serving) to the ordered list of observable events the run produces,
together with how the run ends.
-/

/-- The hardcoded listening port (`PORT = 8000` in the source). -/
def PORT : Nat := 8000

/-- The root URL of the server, `http://localhost:{PORT}` in the source. -/
def rootUrl : String := "http://localhost:" ++ toString PORT

/-- Whether the character list `pat` occurs at the very start of `s`
(embedding of list prefix testing used by substring search). -/
def listStartsWith : List Char → List Char → Bool
  | [], _ => true
  | _ :: _, [] => false
  | p :: ps, c :: cs => p == c && listStartsWith ps cs

/-- Whether `pat` occurs as a contiguous run somewhere in `s`. -/
def containsFrom (pat : List Char) : List Char → Bool
  | [] => listStartsWith pat []
  | c :: rest => listStartsWith pat (c :: rest) || containsFrom pat rest

/-- Embedding of the Python substring test `pat in s` for strings. -/
def strContainsSub (s pat : String) : Bool :=
  containsFrom pat.toList s.toList

/-- Split a character list at every path separator, keeping empty
components (the slash-separated components of the path). -/
def splitOnSlash : List Char → List (List Char)
  | [] => [[]]
  | c :: rest =>
      if c = '/' then [] :: splitOnSlash rest
      else
        match splitOnSlash rest with
        | [] => [[c]]
        | w :: ws => (c :: w) :: ws

/-- Join path components back with separators. -/
def joinSlash : List (List Char) → List Char
  | [] => []
  | [w] => w
  | w :: ws => w ++ '/' :: joinSlash ws

/-- Embedding of `os.path.dirname` for slash-separated paths: everything
before the last path separator. -/
def dirname (p : String) : String :=
  String.mk (joinSlash ((splitOnSlash p.data).dropLast))

/-- The slash-separated components of a path, as strings. -/
def pathComponents (s : String) : List String :=
  (splitOnSlash s.data).map String.mk

/-- The environment of one run of the script: what the operating system
supplies.  `cwd` is the result of `os.getcwd()`, `scriptAbsPath` the result
of `os.path.abspath(__file__)`, `bindResult` the outcome of the
`socketserver.TCPServer(("", PORT), Handler)` constructor, and
`serveInterrupted` whether a `KeyboardInterrupt` is raised while
`serve_forever()` is blocking. -/
inductive BindOutcome where
  | ok : BindOutcome
  | err : String → BindOutcome
  deriving DecidableEq

structure Env where
  cwd : String
  scriptAbsPath : String
  bindResult : BindOutcome
  serveInterrupted : Bool

/-- Observable events of a run, in program order: a line printed to stdout,
an attempt to bind the listener, a successful bind, the invocation of the
OS open-default-browser facility (`webbrowser.open`), and entry into the
blocking serve loop (`serve_forever`). -/
inductive Event where
  | print : String → Event
  | bindAttempt : Nat → Event
  | bound : Nat → Event
  | openBrowser : String → Event
  | serve : Event
  deriving DecidableEq

/-- Exceptions the embedded code can raise. -/
inductive PyExc where
  | keyboardInterrupt : PyExc
  | osError : String → PyExc
  deriving DecidableEq

/-- How the `try` block of `main` ends: still blocked in `serve_forever`,
or with an exception propagating out. -/
inductive TryEnd where
  | blocked : TryEnd
  | raised : PyExc → TryEnd
  deriving DecidableEq

/-- The directory passed by `Handler.__init__` to the underlying handler:
`os.path.dirname(os.path.abspath(__file__))`. -/
def handlerDirectory (env : Env) : String :=
  dirname env.scriptAbsPath

/-- The five status lines printed at the top of `main`, in source order.
Note the second line prints `os.getcwd()`, not the handler directory. -/
def statusLines (env : Env) : List Event :=
  [Event.print "🎮 Starting CodeRunner Development Server...",
   Event.print ("📁 Serving from: " ++ env.cwd),
   Event.print ("🌐 Server running at: http://localhost:" ++ toString PORT),
   Event.print "🚀 Opening game in browser...",
   Event.print "⏹️  Press Ctrl+C to stop the server"]

/-- The first line of the port-conflict report in `main`. -/
def portConflictLine1 : String :=
  "❌ Port " ++ toString PORT ++
    " is already in use. Try a different port or close other servers."

/-- The second line of the port-conflict report in `main`. -/
def portConflictLine2 : String :=
  "🌐 You can also try opening: http://localhost:" ++ toString PORT

/-- The prefix of the generic startup-error report in `main`. -/
def genericErrPrefix : String := "❌ Error starting server: "

/-- The stop-confirmation line printed by the `KeyboardInterrupt` handler. -/
def stopLine : String := "\n🛑 Server stopped by user"

/-- The `try` block of `main`: construct the server (attempting the bind);
on success open the browser at the root URL and enter `serve_forever`,
which returns only by raising `KeyboardInterrupt`.  Returns the events the
block emits together with how it ends. -/
def tryBlock (env : Env) : List Event × TryEnd :=
  match env.bindResult with
  | BindOutcome.err msg =>
      ([Event.bindAttempt PORT], TryEnd.raised (PyExc.osError msg))
  | BindOutcome.ok =>
      ([Event.bindAttempt PORT, Event.bound PORT,
        Event.openBrowser rootUrl, Event.serve],
       if env.serveInterrupted then TryEnd.raised PyExc.keyboardInterrupt
       else TryEnd.blocked)

/-- The full ordered event trace of `main`: the five status prints, then
the `try` block, then whichever `except` clause matches the raised
exception (`KeyboardInterrupt` prints the stop line; `OSError` prints the
port-conflict report when the message contains "Address already in use"
and the generic report otherwise). -/
def mainTrace (env : Env) : List Event :=
  statusLines env ++ (tryBlock env).1 ++
    match (tryBlock env).2 with
    | TryEnd.blocked => []
    | TryEnd.raised PyExc.keyboardInterrupt => [Event.print stopLine]
    | TryEnd.raised (PyExc.osError msg) =>
        if strContainsSub msg "Address already in use" then
          [Event.print portConflictLine1, Event.print portConflictLine2]
        else
          [Event.print (genericErrPrefix ++ msg)]

/-- How a run of `main` ends: still serving, returned normally (every
raised exception was matched by an `except` clause), or with an uncaught
exception escaping `main`. -/
inductive RunResult where
  | running : RunResult
  | returned : RunResult
  | uncaught : PyExc → RunResult
  deriving DecidableEq

/-- The result of `main`, mirroring the `except` clauses: both
`KeyboardInterrupt` and `OSError` are caught and `main` falls off the end
of the handler, returning `None`. -/
def mainResult (env : Env) : RunResult :=
  match (tryBlock env).2 with
  | TryEnd.blocked => RunResult.running
  | TryEnd.raised PyExc.keyboardInterrupt => RunResult.returned
  | TryEnd.raised (PyExc.osError _) => RunResult.returned

/-- The process exit status: `none` while the run never terminates, `0`
when `main` returns normally (the script ends after `main()`), and `1`
when an exception escapes `main` (Python's default for an unhandled
exception). -/
def processExitCode (env : Env) : Option Nat :=
  match mainResult env with
  | RunResult.running => none
  | RunResult.returned => some 0
  | RunResult.uncaught _ => some 1

/-- Discriminator for bind-attempt events. -/
def isBindAttempt : Event → Bool
  | Event.bindAttempt _ => true
  | _ => false

/-- Discriminator for browser-open events. -/
def isBrowserOpen : Event → Bool
  | Event.openBrowser _ => true
  | _ => false

/-- Modelled from the spec: the request-path resolution of the underlying
standard-library static-file handler (`SimpleHTTPRequestHandler`), which is
not part of this repository.  Per the spec, resolution is directory-rooted
with standard path containment: the request's path components are resolved
under the serving root, and empty, current-directory and parent-directory
components are discarded rather than allowed to escape the root.  Paths are
represented as lists of components. -/
def translatePath (root : List String) (req : List String) : List String :=
  root ++ req.filter (fun w => !(w == "" || w == "." || w == ".."))

/-- The root the handler resolves a given request against.  The handler
passes `directory=os.path.dirname(os.path.abspath(__file__))` once at
construction; nothing in the program ever changes it, so it is the same
for every request of the run. -/
def requestRoot (env : Env) (_req : List String) : List String :=
  pathComponents (handlerDirectory env)

/-- Resolution of one request's path against the handler's root. -/
def resolveRequest (env : Env) (req : List String) : List String :=
  translatePath (requestRoot env req) req

/-- Modelled from the spec: the filesystem as the static-file handler sees
it — which resolved paths name readable files (and their byte content),
which name directories (whose listing the library generates). -/
structure FileSystem where
  fileBytes : List String → Option (List Nat)
  isDir : List String → Bool
  dirListing : List String → List Nat

/-- Modelled from the spec: GET handling of the underlying standard-library
static-file handler, which is not part of this repository.  Per the spec:
file bytes with status 200 if the resolved path is a readable file under
the root, the standard directory listing if it is a directory, and a
404-class response otherwise. -/
def doGet (fs : FileSystem) (env : Env) (req : List String) : Nat × List Nat :=
  let p := resolveRequest env req
  match fs.fileBytes p with
  | some bs => (200, bs)
  | none => if fs.isDir p then (200, fs.dirListing p) else (404, [])

/-! Concrete environments used to instantiate the theorems below. -/

/-- A run where the bind fails with the standard address-in-use message. -/
def envConflict : Env :=
  { cwd := "/root", scriptAbsPath := "/srv/CodeRunner/serve.py",
    bindResult := BindOutcome.err "[Errno 98] Address already in use",
    serveInterrupted := false }

/-- A successful run, interrupted from the keyboard while serving. -/
def envW : Env :=
  { cwd := "/srv/CodeRunner", scriptAbsPath := "/srv/CodeRunner/serve.py",
    bindResult := BindOutcome.ok, serveInterrupted := true }

/-- A run where the bind fails with a message that is not the
address-in-use text. -/
def envGenErr : Env :=
  { cwd := "/root", scriptAbsPath := "/srv/CodeRunner/serve.py",
    bindResult := BindOutcome.err "[Errno 13] Permission denied",
    serveInterrupted := false }

/-- A successful run launched from a working directory different from the
script's own directory. -/
def envC5 : Env :=
  { cwd := "/home/user", scriptAbsPath := "/srv/CodeRunner/serve.py",
    bindResult := BindOutcome.ok, serveInterrupted := true }

/-- Two strings differ when, inside the fixed left part of the first, some
position holds a different character than the same position of the
second. -/
theorem append_ne_of_data_lt (p x t : String) (i : Nat) (hi : i < p.data.length)
    (hne : p.data[i]? ≠ t.data[i]?) : p ++ x ≠ t := by
  intro h
  apply hne
  have h2 : (p ++ x).data = t.data := by rw [h]
  rw [String.data_append] at h2
  rw [← h2, List.getElem?_append_left hi]

/-- Claim C1: when the server constructor raises an `OSError` whose text
contains "Address already in use", the launcher prints the two-line
port-conflict report (whose first line names port 8000 and suggests a
remedy), attempts the bind exactly once (no retry), never enters the serve
loop, and `main` returns normally. -/
theorem c1_port_conflict_report (env : Env) (msg : String)
    (hb : env.bindResult = BindOutcome.err msg)
    (hm : strContainsSub msg "Address already in use" = true) :
    mainTrace env = statusLines env ++
      [Event.bindAttempt PORT, Event.print portConflictLine1,
       Event.print portConflictLine2] ∧
    strContainsSub portConflictLine1 "8000" = true ∧
    strContainsSub portConflictLine1 "Try a different port" = true ∧
    (mainTrace env).filter isBindAttempt = [Event.bindAttempt PORT] ∧
    Event.serve ∉ mainTrace env ∧
    mainResult env = RunResult.returned := by
  have ht : tryBlock env =
      ([Event.bindAttempt PORT], TryEnd.raised (PyExc.osError msg)) := by
    simp [tryBlock, hb]
  have htr : mainTrace env = statusLines env ++
      [Event.bindAttempt PORT, Event.print portConflictLine1,
       Event.print portConflictLine2] := by
    simp [mainTrace, ht, hm]
  refine ⟨htr, by decide, by decide, ?_, ?_, ?_⟩
  · rw [htr]; rfl
  · rw [htr]; simp [statusLines]
  · simp [mainResult, ht]

/-- Instantiation of `c1_port_conflict_report` at a concrete run. -/
theorem c1_witness :
    mainTrace envConflict = statusLines envConflict ++
      [Event.bindAttempt PORT, Event.print portConflictLine1,
       Event.print portConflictLine2] ∧
    Event.serve ∉ mainTrace envConflict ∧
    mainResult envConflict = RunResult.returned := by
  have h := c1_port_conflict_report envConflict
    "[Errno 98] Address already in use" rfl (by decide)
  exact ⟨h.1, h.2.2.2.2.1, h.2.2.2.2.2⟩

/-- Claim C2: a `KeyboardInterrupt` raised while serving is caught, the
stop-confirmation line is printed as the final event, `main` returns
normally and the process exit status is 0. -/
theorem c2_keyboard_interrupt_clean_exit (env : Env)
    (hb : env.bindResult = BindOutcome.ok)
    (hi : env.serveInterrupted = true) :
    mainTrace env = statusLines env ++
      [Event.bindAttempt PORT, Event.bound PORT, Event.openBrowser rootUrl,
       Event.serve, Event.print stopLine] ∧
    mainResult env = RunResult.returned ∧
    processExitCode env = some 0 := by
  have ht : tryBlock env =
      ([Event.bindAttempt PORT, Event.bound PORT, Event.openBrowser rootUrl,
        Event.serve], TryEnd.raised PyExc.keyboardInterrupt) := by
    simp [tryBlock, hb, hi]
  refine ⟨?_, ?_, ?_⟩
  · simp [mainTrace, ht]
  · simp [mainResult, ht]
  · simp [processExitCode, mainResult, ht]

/-- Instantiation of `c2_keyboard_interrupt_clean_exit` at a concrete run. -/
theorem c2_witness :
    mainTrace envW = statusLines envW ++
      [Event.bindAttempt PORT, Event.bound PORT, Event.openBrowser rootUrl,
       Event.serve, Event.print stopLine] ∧
    mainResult envW = RunResult.returned ∧
    processExitCode envW = some 0 :=
  c2_keyboard_interrupt_clean_exit envW rfl rfl

/-- Claim C3: on a successful start the effects occur in order — the five
status prints first, then the bind attempt and successful bind on port
8000, then exactly one browser-open invocation with the root URL
`http://localhost:8000`, then entry into the blocking serve loop. -/
theorem c3_startup_order (env : Env)
    (hb : env.bindResult = BindOutcome.ok) :
    (mainTrace env).take 5 = statusLines env ∧
    (∃ rest, (mainTrace env).drop 5 =
      [Event.bindAttempt PORT, Event.bound PORT, Event.openBrowser rootUrl,
       Event.serve] ++ rest) ∧
    (mainTrace env).filter isBrowserOpen = [Event.openBrowser rootUrl] ∧
    rootUrl = "http://localhost:8000" ∧
    PORT = 8000 := by
  cases hs : env.serveInterrupted
  · have ht : tryBlock env =
        ([Event.bindAttempt PORT, Event.bound PORT, Event.openBrowser rootUrl,
          Event.serve], TryEnd.blocked) := by
      simp [tryBlock, hb, hs]
    have htr : mainTrace env = statusLines env ++
        [Event.bindAttempt PORT, Event.bound PORT, Event.openBrowser rootUrl,
         Event.serve] := by
      simp [mainTrace, ht]
    rw [htr]
    exact ⟨rfl, ⟨[], rfl⟩, rfl, by decide, rfl⟩
  · have ht : tryBlock env =
        ([Event.bindAttempt PORT, Event.bound PORT, Event.openBrowser rootUrl,
          Event.serve], TryEnd.raised PyExc.keyboardInterrupt) := by
      simp [tryBlock, hb, hs]
    have htr : mainTrace env = statusLines env ++
        [Event.bindAttempt PORT, Event.bound PORT, Event.openBrowser rootUrl,
         Event.serve, Event.print stopLine] := by
      simp [mainTrace, ht]
    rw [htr]
    exact ⟨rfl, ⟨[Event.print stopLine], rfl⟩, rfl, by decide, rfl⟩

/-- Instantiation of `c3_startup_order` at a concrete run. -/
theorem c3_witness :
    (mainTrace envW).take 5 = statusLines envW ∧
    (∃ rest, (mainTrace envW).drop 5 =
      [Event.bindAttempt PORT, Event.bound PORT, Event.openBrowser rootUrl,
       Event.serve] ++ rest) ∧
    (mainTrace envW).filter isBrowserOpen = [Event.openBrowser rootUrl] ∧
    rootUrl = "http://localhost:8000" ∧
    PORT = 8000 :=
  c3_startup_order envW rfl

/-- Claim C4: the serving root used by the handler is the dirname of the
script's absolute path, every request is resolved against that same root,
and the root does not vary from one request to another. -/
theorem c4_serving_root_fixed (env : Env) (req1 req2 : List String) :
    handlerDirectory env = dirname env.scriptAbsPath ∧
    requestRoot env req1 = pathComponents (dirname env.scriptAbsPath) ∧
    requestRoot env req1 = requestRoot env req2 ∧
    resolveRequest env req1 = translatePath (requestRoot env req1) req1 :=
  ⟨rfl, rfl, rfl, rfl⟩

/-- Claim C5 counterexample: in a run launched from `/home/user` with the
script at `/srv/CodeRunner/serve.py`, the "Serving from" status line
prints `/home/user`, which is not the serving root `/srv/CodeRunner` used
by the handler — the line prints `os.getcwd()`, not the handler
directory. -/
theorem c5_counterexample :
    (mainTrace envC5)[1]? =
      some (Event.print ("📁 Serving from: " ++ "/home/user")) ∧
    handlerDirectory envC5 = "/srv/CodeRunner" ∧
    ("📁 Serving from: " ++ "/home/user") ≠
      ("📁 Serving from: " ++ handlerDirectory envC5) := by
  refine ⟨rfl, rfl, ?_⟩
  decide

/-- Claim C5 (amended): the "Serving from" status line prints the
process's current working directory at launch, which coincides with the
serving root only when the launcher is started from the script's own
directory. -/
theorem c5_amended_serving_from_prints_cwd (env : Env) :
    (mainTrace env)[1]? =
      some (Event.print ("📁 Serving from: " ++ env.cwd)) :=
  rfl

/-- Claim C6: every caught startup error other than the port-conflict case
is reported with the generic line carrying the raw error text, and no
error path — port-conflict or generic — yields a non-zero process exit
status: `main` returns normally and the process exits with the default
status 0. -/
theorem c6_generic_error_and_exit_status (env : Env) (msg : String)
    (hb : env.bindResult = BindOutcome.err msg) :
    (strContainsSub msg "Address already in use" = false →
      mainTrace env = statusLines env ++
        [Event.bindAttempt PORT,
         Event.print (genericErrPrefix ++ msg)]) ∧
    mainResult env = RunResult.returned ∧
    processExitCode env = some 0 := by
  have ht : tryBlock env =
      ([Event.bindAttempt PORT], TryEnd.raised (PyExc.osError msg)) := by
    simp [tryBlock, hb]
  refine ⟨?_, ?_, ?_⟩
  · intro hm
    simp [mainTrace, ht, hm]
  · simp [mainResult, ht]
  · simp [processExitCode, mainResult, ht]

/-- Instantiation of `c6_generic_error_and_exit_status` at a concrete
run whose error text is not the address-in-use message. -/
theorem c6_witness :
    mainTrace envGenErr = statusLines envGenErr ++
      [Event.bindAttempt PORT,
       Event.print (genericErrPrefix ++ "[Errno 13] Permission denied")] ∧
    processExitCode envGenErr = some 0 := by
  have h := c6_generic_error_and_exit_status envGenErr
    "[Errno 13] Permission denied" rfl
  exact ⟨h.1 (by decide), h.2.2⟩

/-- Claim C7: every request resolves to a path that extends the serving
root — the root's components are an initial segment of the resolved path
and no parent-directory component survives resolution, so no path outside
the script's own directory is ever reached. -/
theorem c7_path_containment (env : Env) (req : List String) :
    ∃ rest, resolveRequest env req = requestRoot env req ++ rest ∧
      rest.all (fun w => !(w == "..")) = true := by
  refine ⟨req.filter (fun w => !(w == "" || w == "." || w == "..")), rfl, ?_⟩
  rw [List.all_eq_true]
  intro w hw
  rw [List.mem_filter] at hw
  rcases hw with ⟨_, hp⟩
  simp only [Bool.not_eq_true', Bool.or_eq_false_iff] at hp
  simp [hp.2]

/-- Claim C8: a GET whose path resolves to a readable file under the root
answers 200 with the file's exact bytes; a GET whose path resolves to
neither a file nor a directory answers 404. -/
theorem c8_get_semantics (fs : FileSystem) (env : Env) (req : List String) :
    (∀ bs, fs.fileBytes (resolveRequest env req) = some bs →
      doGet fs env req = (200, bs)) ∧
    (fs.fileBytes (resolveRequest env req) = none →
      fs.isDir (resolveRequest env req) = false →
      doGet fs env req = (404, [])) := by
  constructor
  · intro bs hbs
    simp [doGet, hbs]
  · intro h1 h2
    simp [doGet, h1, h2]

/-- A one-file filesystem used to instantiate the GET semantics. -/
def fsW : FileSystem :=
  { fileBytes := fun p =>
      if p = ["", "srv", "CodeRunner", "index.html"] then some [60, 104, 62]
      else none,
    isDir := fun _ => false,
    dirListing := fun _ => [] }

/-- Instantiation of `c8_get_semantics`: the known file is served with its
exact bytes, an unknown path gets 404. -/
theorem c8_witness :
    doGet fsW envW ["index.html"] = (200, [60, 104, 62]) ∧
    doGet fsW envW ["missing.js"] = (404, []) := by
  constructor
  · exact (c8_get_semantics fsW envW ["index.html"]).1 [60, 104, 62] (by decide)
  · exact (c8_get_semantics fsW envW ["missing.js"]).2 (by decide) rfl

/-- Claim C9: a caught `OSError` is reported through the port-conflict
branch exactly when its text contains the substring
"Address already in use"; any other text — including a platform-specific
address-in-use message — goes through the generic branch. -/
theorem c9_conflict_classification (env : Env) (msg : String)
    (hb : env.bindResult = BindOutcome.err msg) :
    (Event.print portConflictLine1 ∈ mainTrace env ↔
      strContainsSub msg "Address already in use" = true) := by
  have ht : tryBlock env =
      ([Event.bindAttempt PORT], TryEnd.raised (PyExc.osError msg)) := by
    simp [tryBlock, hb]
  cases hm : strContainsSub msg "Address already in use"
  · simp only [Bool.false_eq_true, iff_false]
    intro hmem
    simp only [mainTrace, ht, hm, statusLines, Bool.false_eq_true, if_false,
      List.cons_append, List.nil_append, List.mem_cons, List.mem_singleton,
      List.not_mem_nil, or_false, Event.print.injEq] at hmem
    rcases hmem with h | h | h | h | h | h | h
    · exact absurd h (by decide)
    · exact append_ne_of_data_lt "📁 Serving from: " env.cwd portConflictLine1
        0 (by decide) (by decide) h.symm
    · exact absurd h (by decide)
    · exact absurd h (by decide)
    · exact absurd h (by decide)
    · exact Event.noConfusion h
    · exact append_ne_of_data_lt genericErrPrefix msg portConflictLine1
        2 (by decide) (by decide) h.symm
  · simp [mainTrace, ht, hm, statusLines]

/-- Instantiation of `c9_conflict_classification` at a concrete run with
the standard address-in-use message. -/
theorem c9_witness :
    Event.print portConflictLine1 ∈ mainTrace envConflict :=
  (c9_conflict_classification envConflict
    "[Errno 98] Address already in use" rfl).mpr (by decide)

/-- Claim C10: in a run whose server construction fails, the browser-open
facility is never invoked; and in any run, a browser-open event can only
occur strictly after the successful-bind event. -/
theorem c10_browser_only_after_bind (env : Env) :
    (∀ msg, env.bindResult = BindOutcome.err msg →
      ∀ url, Event.openBrowser url ∉ mainTrace env) ∧
    (∀ (i : Nat) (url : String),
      (mainTrace env)[i]? = some (Event.openBrowser url) →
      ∃ j : Nat, j < i ∧ (mainTrace env)[j]? = some (Event.bound PORT)) := by
  constructor
  · intro msg hb url
    have ht : tryBlock env =
        ([Event.bindAttempt PORT], TryEnd.raised (PyExc.osError msg)) := by
      simp [tryBlock, hb]
    cases hm : strContainsSub msg "Address already in use" <;>
      simp [mainTrace, ht, hm, statusLines]
  · intro i url hi
    cases hb : env.bindResult with
    | err msg =>
        exfalso
        have ht : tryBlock env =
            ([Event.bindAttempt PORT], TryEnd.raised (PyExc.osError msg)) := by
          simp [tryBlock, hb]
        have hmem : Event.openBrowser url ∈ mainTrace env :=
          List.mem_iff_getElem?.mpr ⟨i, hi⟩
        cases hm : strContainsSub msg "Address already in use" <;>
          simp [mainTrace, ht, hm, statusLines] at hmem
    | ok =>
        cases hs : env.serveInterrupted
        · have ht : tryBlock env =
              ([Event.bindAttempt PORT, Event.bound PORT,
                Event.openBrowser rootUrl, Event.serve], TryEnd.blocked) := by
            simp [tryBlock, hb, hs]
          have htr : mainTrace env = statusLines env ++
              [Event.bindAttempt PORT, Event.bound PORT,
               Event.openBrowser rootUrl, Event.serve] := by
            simp [mainTrace, ht]
          rw [htr] at hi
          have hilt : i < 9 := by
            by_contra hge
            rw [List.getElem?_eq_none (by simp [statusLines]; omega)] at hi
            exact Option.noConfusion hi
          interval_cases i
          · simp [statusLines] at hi
          · simp [statusLines] at hi
          · simp [statusLines] at hi
          · simp [statusLines] at hi
          · simp [statusLines] at hi
          · simp [statusLines] at hi
          · simp [statusLines] at hi
          · exact ⟨6, by omega, by rw [htr]; rfl⟩
          · simp [statusLines] at hi
        · have ht : tryBlock env =
              ([Event.bindAttempt PORT, Event.bound PORT,
                Event.openBrowser rootUrl, Event.serve],
               TryEnd.raised PyExc.keyboardInterrupt) := by
            simp [tryBlock, hb, hs]
          have htr : mainTrace env = statusLines env ++
              [Event.bindAttempt PORT, Event.bound PORT,
               Event.openBrowser rootUrl, Event.serve,
               Event.print stopLine] := by
            simp [mainTrace, ht]
          rw [htr] at hi
          have hilt : i < 10 := by
            by_contra hge
            rw [List.getElem?_eq_none (by simp [statusLines]; omega)] at hi
            exact Option.noConfusion hi
          interval_cases i
          · simp [statusLines] at hi
          · simp [statusLines] at hi
          · simp [statusLines] at hi
          · simp [statusLines] at hi
          · simp [statusLines] at hi
          · simp [statusLines] at hi
          · simp [statusLines] at hi
          · exact ⟨6, by omega, by rw [htr]; rfl⟩
          · simp [statusLines] at hi
          · simp [statusLines] at hi

/-- Instantiation of `c10_browser_only_after_bind`: in the failed-bind run
no browser open occurs, and in the successful run the browser-open event
at index 7 is preceded by the bind event at index 6. -/
theorem c10_witness :
    Event.openBrowser rootUrl ∉ mainTrace envConflict ∧
    (∃ j, j < 7 ∧ (mainTrace envW)[j]? = some (Event.bound PORT)) := by
  constructor
  · exact (c10_browser_only_after_bind envConflict).1
      "[Errno 98] Address already in use" rfl rootUrl
  · exact (c10_browser_only_after_bind envW).2 7 rootUrl (by decide)
